import Mathlib

/-!
Shallow embedding of the table-extraction and merge logic of `app.py`
(PDF Table Extractor).

Cells of a grid are `Option String`: `none` models Python `None` / pandas
`NaN`; `some s` a concrete cell value (including `some ""`, which pandas
`dropna` does not treat as missing).  Machinery external to the repository
(pdfplumber, tabula, camelot, xlsxwriter) is modelled as black-box
parameters: each backend is a function the extraction adapter calls, whose
result is an `Except String` value (`Except.error e` models the backend
raising an exception with message `e`).
-/

namespace PdfExtractor

/-- A cell of a grid/dataframe.  `none` models `None`/`NaN`. -/
abbrev Cell := Option String

/-- Row-oriented model of a `pandas.DataFrame`: named columns plus rows. -/
structure Df where
  cols : List String
  rows : List (List Cell)
deriving Repr, DecidableEq

/-- `df[c]`: the values of column `c`, in row order (first matching column
label; labels are unique in all grids this application builds). -/
def Df.col (df : Df) (c : String) : List Cell :=
  df.rows.map (fun r => (r.get? (df.cols.indexOf c)).getD none)

/-- One extracted-table record, as stored by the extraction functions:
`{'id': ..., 'page': ..., 'original_headers': ..., 'dataframe': ..., 'method': ...}`. -/
structure TableRec where
  id : Nat
  page : Nat
  original_headers : List String
  dataframe : Df
  method : String
deriving Repr, DecidableEq

/-- Python `s[:n]` on a string (character-wise slice). -/
def truncChars (n : Nat) (s : String) : String := ⟨s.data.take n⟩

/-- Python `s.startswith(pre)`, written out on the character lists so that
it computes by kernel reduction. -/
def strStartsWith (s pre : String) : Bool := s.data.take pre.data.length == pre.data

/-! ## Schema Merge Engine (`merge_tables_with_mapping`, app.py lines 265-299)

A `ColumnMapping` models the Python dict
`{target_col: {table_id: source_col}}`: an association list in key
*insertion* order (Python dicts iterate in insertion order), with unique
keys. -/

/-- The inner `{table_id: source_column}` dict of one target column. -/
abbrev SourceMap := List (Nat × String)

/-- The `column_mapping` argument: target column → per-table source column,
in key insertion order. -/
abbrev ColumnMapping := List (String × SourceMap)

/-- Dict lookup `source_mapping[table_id]` (with the `table_id in source_mapping`
membership test folded in: `none` = absent). -/
def lookupSrc (tid : Nat) (m : SourceMap) : Option String :=
  (m.find? (fun p => p.1 == tid)).map Prod.snd

/-- The value list that ends up in `standardized_df[target_col]` for one table,
or `none` when the code executes `standardized_df[target_col] = None`
(no mapping entry for this table, or the mapped source column is absent
from the table's current grid). -/
def colFill (df : Df) (tid : Nat) (sm : SourceMap) : Option (List Cell) :=
  match lookupSrc tid sm with
  | some src => if src ∈ df.cols then some (df.col src) else none
  | none => none

/-- The per-table `standardized_df` built by the loop body of
`merge_tables_with_mapping`, with pandas column-assignment semantics made
explicit: columns are the mapping keys in insertion order; the frame has
`df.rows.length` rows when at least one target column receives an actual
source column (the first such `standardized_df[target] = df[source]`
assignment sets the frame's index; scalar `None` assignments before it are
reindexed to `NaN`, after it broadcast to `None`), and `0` rows when every
target is assigned the scalar `None` (scalar assignments to a frame with an
empty index produce no rows). -/
def standardize (mapping : ColumnMapping) (edited : Nat → Option Df) (t : TableRec) : Df :=
  let df := (edited t.id).getD t.dataframe
  let n := if mapping.any (fun p => (colFill df t.id p.2).isSome) then df.rows.length else 0
  { cols := mapping.map Prod.fst
  , rows := (List.range n).map (fun i => mapping.map (fun p =>
      match colFill df t.id p.2 with
      | some vals => (vals.get? i).getD none
      | none => none)) }

/-- `merge_tables_with_mapping(tables, column_mapping)` (app.py 265-299).
`edited` models `st.session_state.edited_tables` (the per-id overlay of
edited grids); `if all_data: return pd.concat(all_data, ignore_index=True)`
else an empty `pd.DataFrame()`. -/
def merge_tables_with_mapping (edited : Nat → Option Df) (tables : List TableRec)
    (mapping : ColumnMapping) : Df :=
  let all_data := tables.map (standardize mapping edited)
  if all_data.isEmpty then { cols := [], rows := [] }
  else { cols := mapping.map Prod.fst, rows := (all_data.map Df.rows).flatten }

/-- The overlay state in which no table has been edited. -/
def noEdits : Nat → Option Df := fun _ => none

/-- A one-row demo table (id 0, single column `"A"`). -/
def t0demo : TableRec :=
  { id := 0, page := 1, original_headers := ["A"]
  , dataframe := { cols := ["A"], rows := [[some "x"]] }, method := "pdfplumber" }

/-- Table `t` (with current grid `df`) has at least one target column of the
mapping whose mapped source column exists in `df` — exactly the condition
under which some `standardized_df[target] = df[source]` assignment runs and
the per-table frame receives `df`'s rows. -/
def hasUsableSource (mapping : ColumnMapping) (df : Df) (tid : Nat) : Prop :=
  ∃ p ∈ mapping, ∃ src, lookupSrc tid p.2 = some src ∧ src ∈ df.cols

theorem any_colFill_iff (mapping : ColumnMapping) (df : Df) (tid : Nat) :
    (mapping.any (fun p => (colFill df tid p.2).isSome) = true)
      ↔ hasUsableSource mapping df tid := by
  rw [List.any_eq_true]
  constructor
  · rintro ⟨p, hp, hs⟩
    refine ⟨p, hp, ?_⟩
    unfold colFill at hs
    cases hl : lookupSrc tid p.2 with
    | none => rw [hl] at hs; simp at hs
    | some src =>
      rw [hl] at hs
      by_cases hc : src ∈ df.cols
      · exact ⟨src, rfl, hc⟩
      · simp [hc] at hs
  · rintro ⟨p, hp, src, hl, hc⟩
    refine ⟨p, hp, ?_⟩
    unfold colFill
    rw [hl]
    simp [hc]

instance (mapping : ColumnMapping) (df : Df) (tid : Nat) :
    Decidable (hasUsableSource mapping df tid) :=
  decidable_of_iff _ (any_colFill_iff mapping df tid)

theorem Df.col_length (df : Df) (c : String) : (df.col c).length = df.rows.length :=
  List.length_map ..

theorem standardize_rows_length (mapping : ColumnMapping) (edited : Nat → Option Df)
    (t : TableRec) :
    (standardize mapping edited t).rows.length
      = (if hasUsableSource mapping ((edited t.id).getD t.dataframe) t.id
         then ((edited t.id).getD t.dataframe).rows.length else 0) := by
  unfold standardize
  simp only [List.length_map, List.length_range]
  by_cases h : hasUsableSource mapping ((edited t.id).getD t.dataframe) t.id
  · rw [if_pos ((any_colFill_iff ..).mpr h), if_pos h]
  · rw [if_neg (fun hh => h ((any_colFill_iff ..).mp hh)), if_neg h]

/-- The `i`-th row of a per-table `standardized_df`, when it exists, is the
mapping keys' fills evaluated at row index `i`. -/
theorem standardize_get (mapping : ColumnMapping) (edited : Nat → Option Df)
    (t : TableRec) (i : Nat) (r : List Cell)
    (hr : (standardize mapping edited t).rows.get? i = some r) :
    r = mapping.map (fun p =>
      match colFill ((edited t.id).getD t.dataframe) t.id p.2 with
      | some vals => (vals.get? i).getD none
      | none => none) := by
  have hlt : i < (standardize mapping edited t).rows.length := by
    rcases List.get?_eq_some.mp hr with ⟨h, _⟩
    exact h
  unfold standardize at hr hlt
  simp only [List.length_map, List.length_range] at hlt
  rw [List.get?_map, List.get?_range hlt] at hr
  exact (Option.some_inj.mp hr).symm

/-- C1 counterexample: with target columns inserted in the order
`["B", "A"]`, the merged output's column order is `["B", "A"]`, not the
sorted-ascending order `["A", "B"]` the claim requires. -/
theorem merge_cols_not_sorted_counterexample :
    (merge_tables_with_mapping noEdits [t0demo]
        [("B", [(0, "A")]), ("A", [(0, "A")])]).cols = ["B", "A"]
    ∧ (["B", "A"] : List String) ≠ ["A", "B"] := by
  exact ⟨rfl, by decide⟩

/-- C1 (amended): for every nonempty list of input tables, the column order
of the DataFrame returned by `merge_tables_with_mapping` equals the
mapping's key iteration (insertion) order — in particular it does not
depend on the order of the input tables; it is the sorted-ascending order
only when the keys were inserted in sorted order (as the UI builder does). -/
theorem merge_cols_insertion_order (edited : Nat → Option Df) (tables : List TableRec)
    (mapping : ColumnMapping) (h : tables ≠ []) :
    (merge_tables_with_mapping edited tables mapping).cols = mapping.map Prod.fst := by
  unfold merge_tables_with_mapping
  cases tables with
  | nil => exact absurd rfl h
  | cons t ts => rfl

theorem merge_cols_insertion_order_witness :
    ([t0demo] : List TableRec) ≠ []
    ∧ (merge_tables_with_mapping noEdits [t0demo] [("B", [(0, "A")])]).cols = ["B"] :=
  ⟨by decide, merge_cols_insertion_order noEdits [t0demo] [("B", [(0, "A")])] (by decide)⟩

/-- C2 counterexample: a one-row table merged under a mapping whose single
target column covers zero tables contributes zero rows, so the merged row
count (0) differs from the sum of input row counts (1). -/
theorem merge_row_count_counterexample :
    (merge_tables_with_mapping noEdits [t0demo] [("X", [])]).rows.length = 0
    ∧ t0demo.dataframe.rows.length = 1 := by decide

/-- C2 (amended): the number of rows of the merged DataFrame equals the sum
over the input tables of the row count of each table's current grid (edited
overlay if present, else original) for each table that has at least one
target column with a usable mapped source column, and `0` for each table
that has none (all of whose target columns are assigned the scalar `None`,
leaving that table's intermediate frame with an empty index). -/
theorem merge_row_count_law (edited : Nat → Option Df) (tables : List TableRec)
    (mapping : ColumnMapping) :
    (merge_tables_with_mapping edited tables mapping).rows.length
      = (tables.map (fun t =>
          if hasUsableSource mapping ((edited t.id).getD t.dataframe) t.id
          then ((edited t.id).getD t.dataframe).rows.length else 0)).sum := by
  unfold merge_tables_with_mapping
  cases tables with
  | nil => rfl
  | cons t ts =>
    simp only [List.map_cons, List.isEmpty_cons, Bool.false_eq_true, if_false,
      List.length_flatten, List.map_map, Function.comp_def]
    simp only [standardize_rows_length]

/-- C3: the merged output's rows are exactly the per-table intermediate
frames' rows, concatenated in input-table order; and for every input table
`t` and every target column (at key position `j` of the mapping): if the
mapping gives no source column for `(target, t)` or gives one absent from
`t`'s current grid, every row contributed by `t` holds the missing value
(`none`) in that column; if the mapped source column exists in `t`'s
current grid, its values are copied row-for-row into that column. -/
theorem merge_fill_and_copy (edited : Nat → Option Df) (tables : List TableRec)
    (mapping : ColumnMapping) :
    ((merge_tables_with_mapping edited tables mapping).rows
        = (tables.map (fun t => (standardize mapping edited t).rows)).flatten)
    ∧ (∀ t, t ∈ tables → ∀ j tgt sm, mapping.get? j = some (tgt, sm) →
        (∀ src, lookupSrc t.id sm = some src → src ∉ ((edited t.id).getD t.dataframe).cols) →
        ∀ i r, (standardize mapping edited t).rows.get? i = some r → r.get? j = some none)
    ∧ (∀ t, t ∈ tables → ∀ j tgt sm src, mapping.get? j = some (tgt, sm) →
        lookupSrc t.id sm = some src → src ∈ ((edited t.id).getD t.dataframe).cols →
        ∀ i, i < ((edited t.id).getD t.dataframe).rows.length →
          ∃ r, (standardize mapping edited t).rows.get? i = some r
            ∧ r.get? j = (((edited t.id).getD t.dataframe).col src).get? i) := by
  refine ⟨?_, ?_, ?_⟩
  · unfold merge_tables_with_mapping
    cases tables with
    | nil => rfl
    | cons t ts =>
      simp only [List.map_cons, List.isEmpty_cons, Bool.false_eq_true, if_false,
        List.map_map, Function.comp_def]
  · intro t ht j tgt sm hj hmiss i r hr
    have hrow := standardize_get mapping edited t i r hr
    have hcf : colFill ((edited t.id).getD t.dataframe) t.id sm = none := by
      unfold colFill
      cases hl : lookupSrc t.id sm with
      | none => rfl
      | some src => simp [hmiss src hl]
    rw [hrow, List.get?_map, hj]
    simp [hcf]
  · intro t ht j tgt sm src hj hl hc i hi
    have hcf : colFill ((edited t.id).getD t.dataframe) t.id sm
        = some (((edited t.id).getD t.dataframe).col src) := by
      unfold colFill; rw [hl]; simp [hc]
    have hany : mapping.any
        (fun p => (colFill ((edited t.id).getD t.dataframe) t.id p.2).isSome) = true :=
      List.any_eq_true.mpr ⟨(tgt, sm), List.get?_mem hj, by rw [hcf]; rfl⟩
    have hn : (standardize mapping edited t).rows.length
        = ((edited t.id).getD t.dataframe).rows.length := by
      rw [standardize_rows_length, if_pos ((any_colFill_iff ..).mp hany)]
    have hi2 : i < (standardize mapping edited t).rows.length := by rw [hn]; exact hi
    have hget := List.get?_eq_get hi2
    refine ⟨_, hget, ?_⟩
    have hvlen : i < (((edited t.id).getD t.dataframe).col src).length := by
      rw [Df.col_length]; exact hi
    obtain ⟨v, hv⟩ : ∃ v, (((edited t.id).getD t.dataframe).col src).get? i = some v := by
      cases hcase : (((edited t.id).getD t.dataframe).col src).get? i with
      | none => exact absurd (List.get?_eq_none.mp hcase) (Nat.not_le.mpr hvlen)
      | some v => exact ⟨v, rfl⟩
    rw [standardize_get mapping edited t i _ hget, List.get?_map, hj]
    simp only [Option.map_some', hcf, hv, Option.getD_some]

/-- Demo table for the C3 witness: id 0, one column `"A"`, two rows. -/
def t3demo : TableRec :=
  { id := 0, page := 1, original_headers := ["A"]
  , dataframe := { cols := ["A"], rows := [[some "x"], [some "y"]] }, method := "pdfplumber" }

theorem merge_fill_and_copy_witness :
    (([some "x", none] : List Cell).get? 1 = some none)
    ∧ ((merge_tables_with_mapping noEdits [t3demo]
          [("X", [(0, "A")]), ("Y", [])]).rows
        = ([t3demo].map (fun t =>
            (standardize [("X", [(0, "A")]), ("Y", [])] noEdits t).rows)).flatten) :=
  ⟨(merge_fill_and_copy noEdits [t3demo] [("X", [(0, "A")]), ("Y", [])]).2.1 t3demo
      (by decide) 1 "Y" [] rfl (fun src hs => by simp [lookupSrc] at hs) 0
      [some "x", none] (by decide),
    (merge_fill_and_copy noEdits [t3demo] [("X", [(0, "A")]), ("Y", [])]).1⟩

/-! ## Extraction Engine Adapter (app.py lines 41-263)

Each backend library is a black box.  `Except.error e` models the library
raising an exception whose `str(e)` is `e`. -/

/-- A raw grid as returned by `page.extract_tables()`: rows of cells. -/
abbrev RawGrid := List (List Cell)

/-- One page of an opened pdfplumber document; `tables` is the outcome of
`page.extract_tables()` (which may raise). -/
structure PlumberPage where
  tables : Except String (List RawGrid)

/-- The outcome of `pdfplumber.open(pdf_file)` (which may raise). -/
abbrev PlumberDoc := Except String (List PlumberPage)

/-- The headers built for `use_first_row_as_header`:
`[str(h) if h is not None else f"Column_{i}" for i, h in enumerate(table[0])]`. -/
def plumberHeaders (row : List Cell) : List String :=
  row.enum.map (fun p => match p.2 with
    | some s => s
    | none => "Column_" ++ toString p.1)

/-- `pd.DataFrame(rows, columns=cols)`: succeeds only when every row has
exactly as many cells as there are column labels (pandas raises on a shape
mismatch, which the per-table `except ... continue` turns into a skip). -/
def dfNew (cols : List String) (rows : List (List Cell)) : Option Df :=
  if rows.all (fun r => r.length == cols.length) then some { cols := cols, rows := rows }
  else none

/-- Column indices kept by `df.dropna(how='all', axis=1)`: a column survives
iff some row holds a non-null cell in it. -/
def keptCols (df : Df) : List Nat :=
  (List.range df.cols.length).filter (fun j => df.rows.any (fun r => ((r.get? j).getD none).isSome))

/-- `df.dropna(how='all', axis=1)`. -/
def dropEmptyCols (df : Df) : Df :=
  let keep := keptCols df
  { cols := keep.map (fun j => (df.cols.get? j).getD "")
  , rows := df.rows.map (fun r => keep.map (fun j => (r.get? j).getD none)) }

/-- Row is dropped by `dropna(how='all', axis=0)`: every cell null (pandas
also drops all rows of a zero-column frame, where the condition holds
vacuously). -/
def rowAllEmpty (r : List Cell) : Bool := r.all (fun c => c.isNone)

/-- `df.dropna(how='all', axis=0)`. -/
def dropEmptyRows (df : Df) : Df :=
  { cols := df.cols, rows := df.rows.filter (fun r => !(rowAllEmpty r)) }

/-- The cleanup the extraction functions run only when the frame has data
rows: `df.dropna(how='all', axis=1).dropna(how='all', axis=0)`. -/
def cleanupDf (df : Df) : Df :=
  if df.rows.length > 0 then dropEmptyRows (dropEmptyCols df) else df

/-- The body of the per-table loop of `extract_with_pdfplumber` (app.py
80-113) for one raw `table`: `none` when the table is skipped (empty raw
grid, or the inner `except ... continue` fired on a shape mismatch),
otherwise the cleaned DataFrame that gets appended. -/
def processTable (useFirstRow : Bool) (table : RawGrid) : Option Df :=
  match table with
  | [] => none
  | r0 :: rest =>
    let odf := if useFirstRow then dfNew (plumberHeaders r0) rest
      else dfNew ((List.range r0.length).map (fun i => "Column_" ++ toString i)) (r0 :: rest)
    odf.map cleanupDf

/-- All `(page, df)` pairs one page contributes (page stored 1-indexed). -/
def processPageTables (useFirstRow : Bool) (pageNum : Nat) (grids : List RawGrid) :
    List (Nat × Df) :=
  (grids.filterMap (processTable useFirstRow)).map (fun df => (pageNum + 1, df))

/-- The page loop of `extract_with_pdfplumber`: walks the requested page
numbers, skipping any `page_num` with `page_num >= len(pdf.pages)`; stops
with the accumulated tables and the exception message when
`page.extract_tables()` raises. -/
def plumberGo (useFirstRow : Bool) (pages : List PlumberPage) :
    List Nat → List (Nat × Df) → (List (Nat × Df)) × Option String
  | [], acc => (acc, none)
  | p :: rest, acc =>
    match pages.get? p with
    | none => plumberGo useFirstRow pages rest acc
    | some pg =>
      match pg.tables with
      | Except.error e => (acc, some e)
      | Except.ok grids =>
        plumberGo useFirstRow pages rest (acc ++ processPageTables useFirstRow p grids)

/-- Turn accumulated `(page, df)` pairs into the stored record dicts; `id`
is assigned in discovery order (`table_id` increments per append). -/
def mkRecords (method : String) (pairs : List (Nat × Df)) : List TableRec :=
  pairs.enum.map (fun p =>
    { id := p.1, page := p.2.1, original_headers := p.2.2.cols
    , dataframe := p.2.2, method := method })

/-- `selected_pages if selected_pages else range(len(pdf.pages))`: the page
numbers the pdfplumber loop walks.  A `some []` selector falls back to all
pages because Python's `if selected_pages:` treats an empty list as falsy. -/
def plumberPagesToProcess (selected : Option (List Nat)) (npages : Nat) : List Nat :=
  match selected with
  | some l => if l.isEmpty then List.range npages else l
  | none => List.range npages

/-- `extract_with_pdfplumber(pdf_file, selected_pages, use_first_row_as_header)`
(app.py 65-117).  `selected : none` models `selected_pages=None`. -/
def extract_with_pdfplumber (doc : PlumberDoc) (selected : Option (List Nat))
    (useFirstRow : Bool) : List TableRec × String :=
  match doc with
  | Except.error e => ([], "pdfplumber (failed: " ++ truncChars 50 e ++ ")")
  | Except.ok pages =>
    match plumberGo useFirstRow pages (plumberPagesToProcess selected pages.length) [] with
    | (pairs, some e) => (mkRecords "pdfplumber" pairs, "pdfplumber (failed: " ++ truncChars 50 e ++ ")")
    | (pairs, none) => (mkRecords "pdfplumber" pairs, "pdfplumber")

/-- One DataFrame in the list returned by `tabula.read_pdf`.  `intCols`
models `df.columns.dtype == 'int64'` (the column labels are a default
integer range, as happens with `pandas_options={'header': None}`). -/
structure TabDf where
  intCols : Bool
  cols : List String
  rows : List (List Cell)
deriving Repr, DecidableEq

/-- The page list handed to `tabula.read_pdf`: 1-indexed page numbers, or
`none` for `"all"` (an empty selector list is falsy in Python and also
yields `"all"`). -/
def tabulaPageList (selected : Option (List Nat)) : Option (List Nat) :=
  match selected with
  | some l => if l.isEmpty then none else some (l.map (fun p => p + 1))
  | none => none

/-- Best-effort page attribution of the `idx`-th tabula table:
`selected_pages[min(idx, len(selected_pages) - 1)] + 1` when an explicit
selector was given, else `idx + 1`. -/
def tabulaPageNum (selected : Option (List Nat)) (idx : Nat) : Nat :=
  match selected with
  | some l => if l.isEmpty then idx + 1 else (l.get? (min idx (l.length - 1))).getD 0 + 1
  | none => idx + 1

/-- `extract_with_tabula(pdf_file, selected_pages, use_first_row_as_header)`
(app.py 119-180).  `backend pages useFirstRow` is the black-box
`tabula.read_pdf` call (`use_first_row_as_header` selects which of the two
call forms runs); `Except.error e` models it raising. -/
def extract_with_tabula
    (backend : Option (List Nat) → Bool → Except String (List (Option TabDf)))
    (selected : Option (List Nat)) (useFirstRow : Bool) : List TableRec × String :=
  match backend (tabulaPageList selected) useFirstRow with
  | Except.error e => ([], "tabula-py (failed: " ++ truncChars 50 e ++ ")")
  | Except.ok dfs =>
    let pairs := dfs.enum.filterMap (fun p =>
      p.2.map (fun tdf =>
        let df0 : Df :=
          if !useFirstRow && tdf.intCols then
            { cols := (List.range tdf.cols.length).map (fun i => "Column_" ++ toString i)
            , rows := tdf.rows }
          else { cols := tdf.cols, rows := tdf.rows }
        (tabulaPageNum selected p.1, cleanupDf df0)))
    (mkRecords "tabula-py" pairs, "tabula-py")

/-- One table reported by `camelot.read_pdf`: its (1-indexed) page and its
grid of string cells (camelot frames hold strings, `""` for blanks, never
`NaN`). -/
structure CamelotTable where
  page : Nat
  grid : List (List String)
deriving Repr, DecidableEq

/-- The pages argument handed to `camelot.read_pdf`: 1-indexed page numbers
(the source comma-joins them into a string; modelled as the list), or
`none` for `'all'` (empty selector list is falsy). -/
def camelotPageList (selected : Option (List Nat)) : Option (List Nat) :=
  match selected with
  | some l => if l.isEmpty then none else some (l.map (fun p => p + 1))
  | none => none

/-- The headers `[str(h) if h != '' else f"Column_{i}" ...]` built from the
first row of a camelot frame. -/
def camelotHeaders (row : List String) : List String :=
  row.enum.map (fun p => if p.2 = "" then "Column_" ++ toString p.1 else p.2)

/-- The body of the camelot result loop (app.py 222-253) for one table:
`none` when `df.empty` holds (no rows or no columns), otherwise the
`(page, df)` pair that gets appended. -/
def processCamelotTable (useFirstRow : Bool) (t : CamelotTable) : Option (Nat × Df) :=
  if t.grid.length = 0 ∨ (t.grid.headD []).length = 0 then none
  else
    let df0 : Df :=
      if useFirstRow then
        match t.grid with
        | [] => { cols := [], rows := [] }
        | r0 :: rest => { cols := camelotHeaders r0
                        , rows := rest.map (fun r => r.map (fun s => some s)) }
      else
        { cols := (List.range (t.grid.headD []).length).map (fun i => "Column_" ++ toString i)
        , rows := t.grid.map (fun r => r.map (fun s => some s)) }
    some (t.page, cleanupDf df0)

/-- `extract_with_camelot(pdf_file, selected_pages, use_first_row_as_header, flavor)`
(app.py 182-263).  `available` models the module-level `CAMELOT_AVAILABLE`
flag; `backend pages flavor` the black-box `camelot.read_pdf` call. -/
def extract_with_camelot (available : Bool)
    (backend : Option (List Nat) → String → Except String (List CamelotTable))
    (selected : Option (List Nat)) (useFirstRow : Bool) (flavor : String) :
    List TableRec × String :=
  if !available then ([], "camelot-" ++ flavor ++ " (not available)")
  else
    match backend (camelotPageList selected) flavor with
    | Except.error e =>
      ([], "camelot-" ++ flavor ++ " (failed: " ++ truncChars 50 e ++ ")")
    | Except.ok tables =>
      (mkRecords ("camelot-" ++ flavor) (tables.filterMap (processCamelotTable useFirstRow))
      , "camelot-" ++ flavor)

/-- `extract_tables_from_pdf(pdf_file, selected_pages, use_first_row_as_header,
engine)` (app.py 41-63): dispatch by engine identifier; anything that is not
a camelot identifier and not `'tabula-py'` defaults to pdfplumber. -/
def extract_tables_from_pdf (plumberDoc : PlumberDoc)
    (tabulaBackend : Option (List Nat) → Bool → Except String (List (Option TabDf)))
    (camelotAvailable : Bool)
    (camelotBackend : Option (List Nat) → String → Except String (List CamelotTable))
    (selected : Option (List Nat)) (useFirstRow : Bool) (engine : String) :
    List TableRec × String :=
  if strStartsWith engine "camelot" then
    let flavor := if engine = "camelot-lattice" then "lattice" else "stream"
    extract_with_camelot camelotAvailable camelotBackend selected useFirstRow flavor
  else if engine = "tabula-py" then
    extract_with_tabula tabulaBackend selected useFirstRow
  else
    extract_with_pdfplumber plumberDoc selected useFirstRow

/-! ## Export Serializer (`create_excel_file`, app.py 301-315) -/

/-- Union of the column lists, in order of first appearance, as
`pd.concat` builds the non-concatenation axis (with `sort` left `False`). -/
def concatCols : List Df → List String
  | [] => []
  | d :: ds => d.cols ++ (concatCols ds).filter (fun c => !(d.cols.contains c))

/-- One row of `df` reindexed to the union columns (missing columns filled
with `NaN`). -/
def reindexRow (cols : List String) (df : Df) (r : List Cell) : List Cell :=
  cols.map (fun c =>
    if df.cols.contains c then (r.get? (df.cols.indexOf c)).getD none else none)

/-- `pd.concat(dfs, ignore_index=True)`. -/
def concatDfs (dfs : List Df) : Df :=
  let cols := concatCols dfs
  { cols := cols, rows := (dfs.map (fun d => d.rows.map (reindexRow cols d))).flatten }

/-- The 31-character sheet-name computation
`f'Page {page_num} Table {idx + 1}'[:31]` of `create_excel_file`. -/
def excelSheetName (page : Nat) (idx : Nat) : String :=
  truncChars 31 ("Page " ++ toString page ++ " Table " ++ toString (idx + 1))

/-- `create_excel_file(tables_data, merge_tables)` (app.py 301-315), modelled
as the list of (sheet name, frame) pairs written to the workbook (the xlsx
byte serialization itself is xlsxwriter's, outside this repository). -/
def create_excel_file (tablesData : List (Nat × Df)) (mergeFlag : Bool) :
    List (String × Df) :=
  if mergeFlag && decide (tablesData.length > 0) then
    [("All Tables", concatDfs (tablesData.map Prod.snd))]
  else
    tablesData.enum.map (fun p => (excelSheetName p.2.1 p.1, p.2.2))

/-! ## Extraction theorems -/

theorem processTable_isSome (u : Bool) (r0 : List Cell) (rest : List (List Cell))
    (hall : ∀ row ∈ rest, row.length = r0.length) :
    (processTable u (r0 :: rest)).isSome = true := by
  unfold processTable dfNew
  cases u with
  | true =>
    have hlen : (plumberHeaders r0).length = r0.length := by simp [plumberHeaders]
    have hthis : (rest.all (fun r => r.length == (plumberHeaders r0).length)) = true := by
      rw [List.all_eq_true]
      intro x hx
      simp [hall x hx, hlen]
    simp [hthis]
  | false =>
    have hlen : ((List.range r0.length).map (fun i => "Column_" ++ toString i)).length
        = r0.length := by simp
    have hthis : ((r0 :: rest).all (fun r =>
        r.length == ((List.range r0.length).map (fun i => "Column_" ++ toString i)).length))
        = true := by
      rw [List.all_eq_true]
      intro x hx
      rcases List.mem_cons.mp hx with h | h
      · simp [h, hlen]
      · simp [hall x h, hlen]
    simpa [hthis] using hall

/-- C7: a raw grid with exactly one row, under first-row-as-header, yields a
zero-data-row table whose column names are that row's cells with every null
header cell replaced by the synthetic `Column_<index>` (0-indexed), and the
table is appended to the result list rather than dropped. -/
theorem single_row_grid_header_skeleton (r : List Cell) :
    extract_with_pdfplumber (Except.ok [⟨Except.ok [[r]]⟩]) none true
      = ([{ id := 0, page := 1
          , original_headers := r.enum.map (fun p => match p.2 with
              | some s => s
              | none => "Column_" ++ toString p.1)
          , dataframe := { cols := r.enum.map (fun p => match p.2 with
              | some s => s
              | none => "Column_" ++ toString p.1), rows := [] }
          , method := "pdfplumber" }], "pdfplumber") := rfl

/-- C6 counterexample: the raw grid `[["A"], [None]]` cleans up to a table
with zero columns, yet it IS appended to the result list (with an empty
`original_headers` and an empty dataframe) — the claim says such a table is
discarded entirely and never appended. -/
theorem zero_column_table_kept_counterexample :
    extract_with_pdfplumber (Except.ok [⟨Except.ok [[[some "A"], [none]]]⟩]) none true
      = ([{ id := 0, page := 1, original_headers := []
          , dataframe := { cols := [], rows := [] }, method := "pdfplumber" }]
        , "pdfplumber") := by decide

/-- C6 (amended): every nonempty raw grid whose data rows match the width of
its first row yields exactly one appended record — tables are appended
regardless of the cleanup's outcome, including when cleanup leaves zero
columns, and a zero-row table with columns (header skeleton) is kept too. -/
theorem nonempty_grid_always_appended (u : Bool) (g : RawGrid) (hne : g ≠ [])
    (hrect : ∀ row ∈ g.tail, row.length = (g.headD []).length) :
    (extract_with_pdfplumber (Except.ok [⟨Except.ok [g]⟩]) none u).1.length = 1 := by
  obtain ⟨r0, rest, rfl⟩ : ∃ r0 rest, g = r0 :: rest := by
    cases g with
    | nil => exact absurd rfl hne
    | cons a l => exact ⟨a, l, rfl⟩
  obtain ⟨df, hdf⟩ := Option.isSome_iff_exists.mp
    (processTable_isSome u r0 rest (by simpa using hrect))
  simp [extract_with_pdfplumber, plumberPagesToProcess, plumberGo, processPageTables,
    mkRecords, hdf]

theorem nonempty_grid_always_appended_witness :
    (([[some "A"], [none]] : RawGrid) ≠ [])
    ∧ (extract_with_pdfplumber
        (Except.ok [⟨Except.ok [[[some "A"], [none]]]⟩]) none true).1.length = 1 :=
  ⟨by decide, nonempty_grid_always_appended true [[some "A"], [none]] (by decide) (by decide)⟩

theorem mkRecords_headers (method : String) (pairs : List (Nat × Df)) (rec : TableRec)
    (h : rec ∈ mkRecords method pairs) : rec.original_headers = rec.dataframe.cols := by
  unfold mkRecords at h
  obtain ⟨p, hp, rfl⟩ := List.mem_map.mp h
  rfl

theorem extract_with_pdfplumber_fst (doc : PlumberDoc) (sel : Option (List Nat)) (u : Bool) :
    ∃ pairs, (extract_with_pdfplumber doc sel u).1 = mkRecords "pdfplumber" pairs := by
  unfold extract_with_pdfplumber
  cases doc with
  | error e => exact ⟨[], rfl⟩
  | ok pages =>
    dsimp only
    rcases hgo : plumberGo u pages (plumberPagesToProcess sel pages.length) [] with ⟨pairs, err⟩
    cases err with
    | none => exact ⟨pairs, rfl⟩
    | some e => exact ⟨pairs, rfl⟩

/-- C10: every record returned by any of the three extraction functions has
`original_headers` equal to the column list of the record's stored dataframe
at the moment the record is created — i.e. the post-cleanup column set. -/
theorem original_headers_match_df_cols :
    (∀ (doc : PlumberDoc) (sel : Option (List Nat)) (u : Bool) (rec : TableRec),
        rec ∈ (extract_with_pdfplumber doc sel u).1 →
        rec.original_headers = rec.dataframe.cols)
    ∧ (∀ (backend : Option (List Nat) → Bool → Except String (List (Option TabDf)))
        (sel : Option (List Nat)) (u : Bool) (rec : TableRec),
        rec ∈ (extract_with_tabula backend sel u).1 →
        rec.original_headers = rec.dataframe.cols)
    ∧ (∀ (av : Bool) (backend : Option (List Nat) → String → Except String (List CamelotTable))
        (sel : Option (List Nat)) (u : Bool) (flavor : String) (rec : TableRec),
        rec ∈ (extract_with_camelot av backend sel u flavor).1 →
        rec.original_headers = rec.dataframe.cols) := by
  refine ⟨?_, ?_, ?_⟩
  · intro doc sel u rec h
    obtain ⟨pairs, hp⟩ := extract_with_pdfplumber_fst doc sel u
    rw [hp] at h
    exact mkRecords_headers _ _ _ h
  · intro backend sel u rec h
    unfold extract_with_tabula at h
    cases hb : backend (tabulaPageList sel) u with
    | error e => rw [hb] at h; simp at h
    | ok dfs =>
      rw [hb] at h
      exact mkRecords_headers _ _ _ h
  · intro av backend sel u flavor rec h
    unfold extract_with_camelot at h
    cases av with
    | false => simp at h
    | true =>
      cases hb : backend (camelotPageList sel) flavor with
      | error e => rw [hb] at h; simp at h
      | ok tables =>
        rw [hb] at h
        exact mkRecords_headers _ _ _ h

/-- A one-page pdfplumber document holding a single 2x1 raw grid. -/
def demoDoc : PlumberDoc := Except.ok [⟨Except.ok [[[some "h"], [some "v"]]]⟩]

/-- The record extraction of `demoDoc` produces. -/
def demoRec : TableRec :=
  { id := 0, page := 1, original_headers := ["h"]
  , dataframe := { cols := ["h"], rows := [[some "v"]] }, method := "pdfplumber" }

theorem original_headers_match_df_cols_witness :
    (demoRec ∈ (extract_with_pdfplumber demoDoc none true).1)
    ∧ demoRec.original_headers = demoRec.dataframe.cols :=
  ⟨by decide, original_headers_match_df_cols.1 demoDoc none true demoRec (by decide)⟩

/-- Demo tabula backend returning no tables. -/
def demoTabulaBackend : Option (List Nat) → Bool → Except String (List (Option TabDf)) :=
  fun _ _ => Except.ok []

/-- Demo camelot backend returning no tables. -/
def demoCamelotBackend : Option (List Nat) → String → Except String (List CamelotTable) :=
  fun _ _ => Except.ok []

/-- C4 counterexample: requesting `camelot-lattice` when camelot is
unavailable makes `extract_tables_from_pdf` return
`([], "camelot-lattice (not available)")` — an empty table list with an
unavailability notice — and NOT the default engine's (pdfplumber's)
extraction result, which on the same document holds one table. -/
theorem engine_fallback_counterexample :
    extract_tables_from_pdf demoDoc demoTabulaBackend false demoCamelotBackend
        none true "camelot-lattice"
      = ([], "camelot-lattice (not available)")
    ∧ (extract_with_pdfplumber demoDoc none true).1.length = 1 := by decide

/-- C4 (amended): an engine identifier outside the closed set (neither a
camelot identifier nor `tabula-py`) falls through to pdfplumber, whose
result — tables and method descriptor — is returned unchanged and without
raising; a camelot identifier when camelot is unavailable in the runtime
also raises nothing but returns an EMPTY table list with the descriptor
`camelot-<flavor> (not available)` rather than pdfplumber's result (the
fallback to pdfplumber for unavailable camelot happens in the UI layer,
before this function is called). -/
theorem engine_dispatch_behavior :
    (∀ (pd : PlumberDoc)
        (tb : Option (List Nat) → Bool → Except String (List (Option TabDf)))
        (ca : Bool)
        (cb : Option (List Nat) → String → Except String (List CamelotTable))
        (sel : Option (List Nat)) (u : Bool) (engine : String),
        strStartsWith engine "camelot" = false → engine ≠ "tabula-py" →
        extract_tables_from_pdf pd tb ca cb sel u engine
          = extract_with_pdfplumber pd sel u)
    ∧ (∀ (pd : PlumberDoc)
        (tb : Option (List Nat) → Bool → Except String (List (Option TabDf)))
        (cb : Option (List Nat) → String → Except String (List CamelotTable))
        (sel : Option (List Nat)) (u : Bool) (engine : String),
        strStartsWith engine "camelot" = true →
        extract_tables_from_pdf pd tb false cb sel u engine
          = ([], "camelot-" ++ (if engine = "camelot-lattice" then "lattice" else "stream")
              ++ " (not available)")) := by
  constructor
  · intro pd tb ca cb sel u engine h1 h2
    unfold extract_tables_from_pdf
    simp [h1, h2]
  · intro pd tb cb sel u engine h1
    unfold extract_tables_from_pdf
    simp [h1, extract_with_camelot]

theorem engine_dispatch_behavior_witness :
    extract_tables_from_pdf demoDoc demoTabulaBackend true demoCamelotBackend
        none true "unknown-engine"
      = extract_with_pdfplumber demoDoc none true
    ∧ extract_tables_from_pdf demoDoc demoTabulaBackend false demoCamelotBackend
        none true "camelot-stream"
      = ([], "camelot-stream (not available)") := by
  constructor
  · exact engine_dispatch_behavior.1 demoDoc demoTabulaBackend true demoCamelotBackend
      none true "unknown-engine" (by decide) (by decide)
  · have h := engine_dispatch_behavior.2 demoDoc demoTabulaBackend demoCamelotBackend
      none true "camelot-stream" (by decide)
    rw [h]
    decide

/-- A document whose first page yields one table and whose second page's
`extract_tables()` call raises. -/
def failDoc : PlumberDoc :=
  Except.ok [⟨Except.ok [[[some "h"], [some "v"]]]⟩, ⟨Except.error "boom"⟩]

/-- C5 counterexample: when the backend raises on the second page after the
first page already yielded a table, `extract_with_pdfplumber` returns the
accumulated non-empty table list together with the truncated failure
descriptor — not the exact pair of an EMPTY table list and descriptor the
claim requires. -/
theorem backend_failure_partial_counterexample :
    extract_with_pdfplumber failDoc none true
      = ([demoRec], "pdfplumber (failed: boom)")
    ∧ ([demoRec] : List TableRec) ≠ [] := by decide

/-- C5 (amended): no extraction function propagates a backend exception.
When `tabula.read_pdf` raises, `extract_with_tabula` returns exactly
`([], "tabula-py (failed: <first 50 chars>)")`; when `camelot.read_pdf`
raises, `extract_with_camelot` returns exactly
`([], "camelot-<flavor> (failed: <first 50 chars>)")`; when
`pdfplumber.open` raises, `extract_with_pdfplumber` returns exactly
`([], "pdfplumber (failed: <first 50 chars>)")`; and in every case the
pdfplumber descriptor is either plain `"pdfplumber"` or a truncated failure
descriptor (the table list, however, keeps whatever was accumulated before
a mid-loop failure). -/
theorem backend_failure_descriptor :
    (∀ (backend : Option (List Nat) → Bool → Except String (List (Option TabDf)))
        (sel : Option (List Nat)) (u : Bool) (e : String),
        backend (tabulaPageList sel) u = Except.error e →
        extract_with_tabula backend sel u
          = ([], "tabula-py (failed: " ++ truncChars 50 e ++ ")"))
    ∧ (∀ (backend : Option (List Nat) → String → Except String (List CamelotTable))
        (sel : Option (List Nat)) (u : Bool) (flavor e : String),
        backend (camelotPageList sel) flavor = Except.error e →
        extract_with_camelot true backend sel u flavor
          = ([], "camelot-" ++ flavor ++ " (failed: " ++ truncChars 50 e ++ ")"))
    ∧ (∀ (e : String) (sel : Option (List Nat)) (u : Bool),
        extract_with_pdfplumber (Except.error e) sel u
          = ([], "pdfplumber (failed: " ++ truncChars 50 e ++ ")"))
    ∧ (∀ (doc : PlumberDoc) (sel : Option (List Nat)) (u : Bool),
        (extract_with_pdfplumber doc sel u).2 = "pdfplumber"
        ∨ ∃ e, (extract_with_pdfplumber doc sel u).2
            = "pdfplumber (failed: " ++ truncChars 50 e ++ ")") := by
  refine ⟨?_, ?_, ?_, ?_⟩
  · intro backend sel u e he
    unfold extract_with_tabula
    rw [he]
  · intro backend sel u flavor e he
    unfold extract_with_camelot
    simp [he]
  · intro e sel u
    rfl
  · intro doc sel u
    unfold extract_with_pdfplumber
    cases doc with
    | error e => exact Or.inr ⟨e, rfl⟩
    | ok pages =>
      dsimp only
      rcases plumberGo u pages (plumberPagesToProcess sel pages.length) [] with ⟨pairs, err⟩
      cases err with
      | none => exact Or.inl rfl
      | some e => exact Or.inr ⟨e, rfl⟩

theorem backend_failure_descriptor_witness :
    extract_with_tabula (fun _ _ => Except.error "boom") none true
      = ([], "tabula-py (failed: boom)") := by
  have h := backend_failure_descriptor.1 (fun _ _ => Except.error "boom") none true "boom" rfl
  rw [h]
  decide

/-! ## Page-range handling -/

theorem plumberGo_filter (u : Bool) (pages : List PlumberPage) (l : List Nat)
    (acc : List (Nat × Df)) :
    plumberGo u pages l acc
      = plumberGo u pages (l.filter (fun p => decide (p < pages.length))) acc := by
  induction l generalizing acc with
  | nil => rfl
  | cons p rest ih =>
    by_cases hp : p < pages.length
    · obtain ⟨pg, hpg⟩ : ∃ pg, pages.get? p = some pg := ⟨_, List.get?_eq_get hp⟩
      rw [List.filter_cons_of_pos (by simpa using hp)]
      simp only [plumberGo, hpg]
      cases pg.tables with
      | error e => rfl
      | ok grids => exact ih _
    · have hnone : pages.get? p = none := List.get?_eq_none.mpr (Nat.le_of_not_lt hp)
      rw [List.filter_cons_of_neg (by simpa using hp)]
      simp only [plumberGo, hnone]
      exact ih acc

/-- The real tabula-py raises when the requested page list names a page the
document does not have; this backend models that behavior for a one-page
document holding one table (it succeeds only on the exact in-range list
`[1]`). -/
def tabulaDemoBackend : Option (List Nat) → Bool → Except String (List (Option TabDf)) :=
  fun pl _ =>
    if pl = some [1] then
      Except.ok [some { intCols := false, cols := ["A"], rows := [[some "x"]] }]
    else Except.error "Page number does not exist"

/-- C8 counterexample: with an explicit selector containing the out-of-range
0-indexed page 5 of a one-page document, tabula-based extraction does not
silently discard that page number: the translated page list — out-of-range
entry included — goes to the backend, the backend raises, and extraction
yields zero tables, while the same selector without the out-of-range page
yields one table.  So extraction does not proceed normally over the
in-range pages of the selector. -/
theorem tabula_out_of_range_counterexample :
    (extract_with_tabula tabulaDemoBackend (some [0, 5]) true).1 = []
    ∧ (extract_with_tabula tabulaDemoBackend (some [0]) true).1.length = 1
    ∧ (extract_with_tabula tabulaDemoBackend (some [0, 5]) true).2
      = "tabula-py (failed: Page number does not exist)" := by decide

/-- C8 (amended): pdfplumber-based extraction silently skips every
out-of-range page number of an explicit selector — the result equals
extraction over the in-range sub-selector, with no exception and no table
attributed to out-of-range pages; tabula-based extraction instead forwards
the whole translated (1-indexed) page list to the backend without any range
filtering, so out-of-range handling there is the backend's. -/
theorem page_range_handling :
    (∀ (pages : List PlumberPage) (u : Bool) (l : List Nat),
        l ≠ [] → l.filter (fun p => decide (p < pages.length)) ≠ [] →
        extract_with_pdfplumber (Except.ok pages) (some l) u
          = extract_with_pdfplumber (Except.ok pages)
              (some (l.filter (fun p => decide (p < pages.length)))) u)
    ∧ (∀ l : List Nat, l ≠ [] →
        tabulaPageList (some l) = some (l.map (fun p => p + 1))) := by
  constructor
  · intro pages u l h1 h2
    have e1 : l.isEmpty = false := List.isEmpty_eq_false.mpr h1
    have e2 : (l.filter (fun p => decide (p < pages.length))).isEmpty = false :=
      List.isEmpty_eq_false.mpr h2
    unfold extract_with_pdfplumber plumberPagesToProcess
    simp only [e1, e2, Bool.false_eq_true, if_false]
    rw [plumberGo_filter]
  · intro l h1
    have e1 : l.isEmpty = false := List.isEmpty_eq_false.mpr h1
    unfold tabulaPageList
    simp only [e1, Bool.false_eq_true, if_false]

/-- A one-page pdfplumber document with a single table. -/
def onePage : List PlumberPage := [⟨Except.ok [[[some "h"], [some "v"]]]⟩]

theorem page_range_handling_witness :
    extract_with_pdfplumber (Except.ok onePage) (some [0, 5]) true
      = extract_with_pdfplumber (Except.ok onePage) (some [0]) true
    ∧ tabulaPageList (some [0, 5]) = some [1, 6] := by
  constructor
  · have h := page_range_handling.1 onePage true [0, 5] (by decide) (by decide)
    rw [h]
    decide
  · have h := page_range_handling.2 [0, 5] (by decide)
    rw [h]
    decide

/-! ## Sheet naming -/

/-- C9: with `mergeFlag = false`, the sheet at position `idx` of the
workbook is named by formatting `Page <page> Table <idx+1>` in full and
then truncating the fully formatted name to its first 31 characters. -/
theorem excel_sheet_name_truncation (tablesData : List (Nat × Df)) (idx page : Nat)
    (df : Df) (h : tablesData.get? idx = some (page, df)) :
    (create_excel_file tablesData false).get? idx
      = some (truncChars 31 ("Page " ++ toString page ++ " Table " ++ toString (idx + 1))
            , df) := by
  unfold create_excel_file
  simp only [Bool.false_and, Bool.false_eq_true, if_false]
  rw [List.get?_map, List.get?_enum, h]
  rfl

theorem excel_sheet_name_truncation_witness :
    (create_excel_file [(9999999999999999999, { cols := [], rows := [] })] false).get? 0
      = some ("Page 9999999999999999999 Table ", { cols := [], rows := [] }) := by
  have h := excel_sheet_name_truncation [(9999999999999999999, { cols := [], rows := [] })]
    0 9999999999999999999 { cols := [], rows := [] } rfl
  rw [h]
  decide

end PdfExtractor
